import Mathlib

/-!
Shallow embedding of `src/stratum_proxy.py` (Simple-Bitcoin-Stratum-Proxy).

The Python program is a single-file Stratum mining proxy.  Its state lives in
module-level globals (`clients`, `difficulty`, `job_id`, `current_block`,
`current_transactions`, `extranonce1`, `extranonce2_size`); the per-connection
handler `handle_client` parses newline-delimited JSON messages and dispatches
on the `method` field to `handle_subscribe`, `handle_authorize`,
`handle_submit`, `handle_configure` and `handle_suggest_difficulty`.

The embedding below models those globals as a `ProxyState` record, the
observable outputs (messages sent to clients, upstream RPC calls issued) as a
list of `Eff` values, and each Python handler as a pure function
`... → ProxyState × List Eff × Bool`, where the final `Bool` is `false`
exactly when the Python code would raise an exception out of the handler
(such exceptions are caught by `handle_client`'s inner `except` and the
connection stays open; they are modelled so that no response is produced).
Sources of nondeterminism (the random extranonce1, `random.random() < 0.1`,
`time.time()`, and the upstream RPC result) are passed in as explicit
parameters.  Socket-level I/O (send failures, `remove_client`) is below the
level of this embedding; `send_to_client` is modelled as emitting an effect.
-/

/-! ### Hex strings

`bytes.fromhex` / `bytes.hex` as used by `send_job`:
`bytes.fromhex` accepts upper- and lower-case hex digits (raising `ValueError`
otherwise, modelled by `Option`), while `bytes.hex` always emits lower-case.
-/

/-- Digit character for a nibble value (lower-case, as Python's `bytes.hex`):
codepoint 48 is `'0'`, 87 + 10 = 97 is `'a'`. -/
def hexChar (n : Nat) : Char :=
  Char.ofNat (if n < 10 then 48 + n else 87 + n)

/-- The sixteen lower-case hex digits, in value order. -/
def lowerHexDigits : List Char := (List.range 16).map hexChar

/-- Value of a hex digit character; both cases accepted, as `bytes.fromhex`
(codepoints 48-57 are `'0'`-`'9'`, 97-102 `'a'`-`'f'`, 65-70 `'A'`-`'F'`). -/
def hexVal? (c : Char) : Option Nat :=
  if 48 ≤ c.toNat ∧ c.toNat ≤ 57 then some (c.toNat - 48)
  else if 97 ≤ c.toNat ∧ c.toNat ≤ 102 then some (c.toNat - 87)
  else if 65 ≤ c.toNat ∧ c.toNat ≤ 70 then some (c.toNat - 55)
  else none

/-- `bytes.fromhex`: pairs of hex digits to bytes; fails on odd length or a
non-hex character (Python raises `ValueError`). -/
def hexDecode? : List Char → Option (List Nat)
  | [] => some []
  | [_] => none
  | c1 :: c2 :: rest =>
    match hexVal? c1, hexVal? c2, hexDecode? rest with
    | some v1, some v2, some bs => some ((16 * v1 + v2) :: bs)
    | _, _, _ => none

/-- `bytes.hex`: bytes to lower-case hex digit pairs. -/
def hexEncode : List Nat → List Char
  | [] => []
  | b :: bs => hexChar (b / 16) :: hexChar (b % 16) :: hexEncode bs

/-- The byte-order normalization used throughout `send_job`:
`bytes.fromhex(s)[::-1].hex()` — hex-decode, reverse the bytes, hex-encode.
`none` models the `ValueError` raised on a non-hex or odd-length input. -/
def leTransform? (s : String) : Option String :=
  match hexDecode? s.data with
  | some bs => some (String.mk (hexEncode bs.reverse))
  | none => none

theorem hexVal_hexChar : ∀ v < 16, hexVal? (hexChar v) = some v := by decide

theorem hexVal_lower : ∀ c ∈ lowerHexDigits, ∃ v, hexVal? c = some v ∧ v < 16 ∧ hexChar v = c := by
  intro c h
  obtain ⟨v, hv, rfl⟩ := List.mem_map.mp h
  have hv16 : v < 16 := List.mem_range.mp hv
  exact ⟨v, hexVal_hexChar v hv16, hv16, rfl⟩

theorem hexDecode_hexEncode (bs : List Nat) (h : ∀ b ∈ bs, b < 256) :
    hexDecode? (hexEncode bs) = some bs := by
  induction bs with
  | nil => rfl
  | cons b bs ih =>
    have hb : b < 256 := h b (by simp)
    have h1 : b / 16 < 16 := by omega
    have h2 : b % 16 < 16 := by omega
    have h3 : 16 * (b / 16) + b % 16 = b := by omega
    simp [hexEncode, hexDecode?, hexVal_hexChar _ h1, hexVal_hexChar _ h2,
      ih (fun x hx => h x (List.mem_cons_of_mem _ hx)), h3]

theorem hexDecode_lower (l : List Char) (h : ∀ c ∈ l, c ∈ lowerHexDigits)
    (he : l.length % 2 = 0) :
    ∃ bs, hexDecode? l = some bs ∧ (∀ b ∈ bs, b < 256) ∧ hexEncode bs = l := by
  induction l using hexDecode?.induct with
  | case1 => exact ⟨[], rfl, by simp, rfl⟩
  | case2 c => simp at he
  | case3 c1 c2 rest v1 v2 bs0 hdec0 hval2 hval1 ih =>
    obtain ⟨w1, hwal1, hw1, hchar1⟩ := hexVal_lower c1 (h c1 (by simp))
    obtain ⟨w2, hwal2, hw2, hchar2⟩ := hexVal_lower c2 (h c2 (by simp))
    obtain ⟨bs, hdec, hlt, henc⟩ :=
      ih (fun c hc => h c (by simp [hc])) (by simp at he; omega)
    have hv1 : w1 = v1 := by rw [hval1] at hwal1; exact (Option.some_inj.mp hwal1).symm
    have hv2 : w2 = v2 := by rw [hval2] at hwal2; exact (Option.some_inj.mp hwal2).symm
    rw [hv1] at hw1 hchar1
    rw [hv2] at hw2 hchar2
    refine ⟨(16 * v1 + v2) :: bs, ?_, ?_, ?_⟩
    · simp [hexDecode?, hval1, hval2, hdec]
    · intro b hb
      rcases List.mem_cons.mp hb with rfl | hb
      · omega
      · exact hlt b hb
    · have hd : (16 * v1 + v2) / 16 = v1 := by omega
      have hm : (16 * v1 + v2) % 16 = v2 := by omega
      simp [hexEncode, hd, hm, hchar1, hchar2, henc]
  | case4 c1 c2 rest hfail ih =>
    obtain ⟨w1, hwal1, hw1, hchar1⟩ := hexVal_lower c1 (h c1 (by simp))
    obtain ⟨w2, hwal2, hw2, hchar2⟩ := hexVal_lower c2 (h c2 (by simp))
    obtain ⟨bs, hdec, hlt, henc⟩ :=
      ih (fun c hc => h c (by simp [hc])) (by simp at he; omega)
    exact absurd (hfail w1 w2 bs hwal1 hwal2 hdec) (by simp)

/-! ### Numeric formatting

`hex(n)[2:]` and `format(n, '08x')` for nonnegative `n`: lower-case hex with
no leading zeros (`natToHex`), optionally left-padded with `'0'` to width 8
(`zfill8`, `format08x`).  `Nat.toDigits 16` produces exactly Python's
lower-case hex digit string.
-/

/-- `hex(n)[2:]` for a nonnegative integer. -/
def natToHex (n : Nat) : String := String.mk (Nat.toDigits 16 n)

/-- `str.zfill(8)` for a digit string (no sign handling needed here). -/
def zfill8 (s : String) : String :=
  String.mk (List.replicate (8 - s.data.length) '0' ++ s.data)

/-- `format(n, '08x')`. -/
def format08x (n : Nat) : String := zfill8 (natToHex n)

/-! ### Data model -/

/-- A JSON value as it appears in request `params` (only the shapes the proxy
ever touches: strings and numbers).  Python floats are modelled as rationals. -/
inductive JVal where
  | str : String → JVal
  | num : Rat → JVal
deriving DecidableEq

/-- Python truthiness for the `JVal` shapes (used by `if client.get('username')`). -/
def JVal.truthy : JVal → Bool
  | JVal.str v => if v = "" then false else true
  | JVal.num q => if q = 0 then false else true

/-- `template['curtime']` is an `int` in a real `getblocktemplate` reply but a
hex *string* in the dummy template the code fabricates; `send_job` checks
`isinstance(ntime_raw, int)`. -/
inductive CurTime where
  | int : Nat → CurTime
  | str : String → CurTime
deriving DecidableEq

/-- A block template dictionary.  Every field the code reads with `.get` is
optional, mirroring possibly-missing dictionary keys (the fabricated dummy
template, for instance, has no `'version'` key). -/
structure Template where
  previousblockhash : Option String
  bits : Option String
  curtime : Option CurTime
  height : Option Nat
  version : Option Nat
  transactions : Option (List String)
deriving DecidableEq

/-- The dummy template substituted by `get_block_template` when the RPC fails
(`now` is `int(time.time())`; `curtime` is `hex(now)[2:].zfill(8)`, a string). -/
def dummyTemplate (now : Nat) : Template :=
  { previousblockhash := some "000000000000000000096b9ba75c557a8b5ad267b11ddddd97f2c62a1b2a8f4c"
    bits := some "1a03c34b"
    curtime := some (CurTime.str (zfill8 (natToHex now)))
    height := some 800000
    version := none
    transactions := some [] }

/-- A client record (the dict built in `handle_client`); the socket and read
buffer are I/O-level and omitted, `address` is an opaque identifier. -/
structure Client where
  address : Nat
  username : Option JVal
deriving DecidableEq

/-- The module-level globals of `stratum_proxy.py`. -/
structure ProxyState where
  clients : List Client
  difficulty : Rat
  job_id : Nat
  current_block : Option Template
  current_transactions : Option (List String)
  extranonce1 : Option String
  extranonce2_size : Nat
deriving DecidableEq

/-- The globals' initial values at module load. -/
def initialState : ProxyState :=
  { clients := []
    difficulty := 1
    job_id := 0
    current_block := none
    current_transactions := none
    extranonce1 := none
    extranonce2_size := 4 }

/-- Result payloads of JSON-RPC responses the proxy sends. -/
inductive RVal where
  | b : Bool → RVal
  | subscribe : String → String → Nat → RVal
  | configure : RVal
deriving DecidableEq

/-- The parameter list of a `mining.notify` notification. -/
structure NotifyParams where
  jobId : String
  prevhash : String
  coinbase1 : String
  coinbase2 : String
  merkleBranches : List String
  version : String
  bits : String
  ntime : String
  cleanJobs : Bool
deriving DecidableEq

/-- A JSON message written to a client socket. -/
inductive Msg where
  | response : Nat → RVal → Option String → Msg
  | setDifficulty : Rat → Msg
  | notify : NotifyParams → Msg
deriving DecidableEq

/-- Observable effects: a message sent to the client at `address`, or an
upstream Bitcoin-Core RPC call being issued (named by its method). -/
inductive Eff where
  | send : Nat → Msg → Eff
  | rpc : String → Eff
deriving DecidableEq

/-- `coinbase1` hard-coded in `send_job`. -/
def coinbase1 : String :=
  "01000000010000000000000000000000000000000000000000000000000000000000000000ffffffff20"

/-- `coinbase2` hard-coded in `send_job`. -/
def coinbase2 : String :=
  "ffffffff0100f2052a01000000434104678afdb0fe5548271967f1a67130b7105cd6a828e03909a67962e0ea1f61deb649f6bc3f4cef38c4f35504e51ec112de5c384df7ba0b8d578a4c702b6bf11d5fac00000000"

/-- `ntime_hex` as computed in `send_job`: `format(n, '08x')` when `curtime`
is an int (default `int(time.time())`, the `now` parameter), the raw string
otherwise. -/
def ntimeHex (now : Nat) (blk : Template) : String :=
  match blk.curtime.getD (CurTime.int now) with
  | CurTime.int n => format08x n
  | CurTime.str t => t

/-! ### `send_job`, the template fetch, and the per-method handlers -/

/-- `send_job(client)`: builds the `mining.notify` parameters from the current
template.  `some []` models the early `return`s (no current block, or empty
`previousblockhash`); `none` models a `ValueError` escaping from
`bytes.fromhex` on a malformed hex field. -/
def send_job (now : Nat) (s : ProxyState) (c : Client) : Option (List Eff) :=
  match s.current_block with
  | none => some []
  | some blk =>
    let prevhash := blk.previousblockhash.getD ""
    if prevhash = "" then some []
    else
      match leTransform? prevhash, leTransform? (format08x (blk.version.getD 1)),
            leTransform? (blk.bits.getD "1d00ffff"), leTransform? (ntimeHex now blk) with
      | some rev, some ver, some bits, some ntime =>
          some [Eff.send c.address (Msg.notify
            { jobId := natToHex s.job_id
              prevhash := rev
              coinbase1 := coinbase1
              coinbase2 := coinbase2
              merkleBranches := []
              version := ver
              bits := bits
              ntime := ntime
              cleanJobs := false })]
      | _, _, _, _ => none

/-- `if client.get('username'):` — the guard of the notify loop in
`get_block_template` (username unset, or set to a falsy value, skips). -/
def usernameTruthy (c : Client) : Bool :=
  match c.username with
  | some u => u.truthy
  | none => false

/-- The `for client in clients: if client.get('username'): send_job(client)`
loop of `get_block_template`.  The `Bool` is `false` when a `send_job` raised,
aborting the loop (later clients get nothing). -/
def notifyAll (now : Nat) (s : ProxyState) : List Client → List Eff × Bool
  | [] => ([], true)
  | c :: rest =>
    if usernameTruthy c then
      match send_job now s c with
      | some effs =>
        let r := notifyAll now s rest
        (effs ++ r.1, r.2)
      | none => ([], false)
    else notifyAll now s rest

/-- `get_block_template()`.  `rpc` is the value returned by
`bitcoin_rpc('getblocktemplate', ...)`, with `none` standing for every falsy
result (`None` on connection/HTTP/RPC errors, and the `{}` returned for
non-critical RPC errors — both fail the `if not template:` test).  In that
case the code logs an error and substitutes `dummyTemplate now`.
It then unconditionally replaces `current_block`/`current_transactions`,
increments `job_id`, and notifies every client that has a username.
The returned `Option Template` is the function's return value, `none` when an
exception escaped the notify loop (losing the return). -/
def get_block_template (rpc : Option Template) (now : Nat) (s : ProxyState) :
    ProxyState × List Eff × Option Template :=
  let template := rpc.getD (dummyTemplate now)
  let s' : ProxyState :=
    { s with current_block := some template
             current_transactions := some (template.transactions.getD [])
             job_id := s.job_id + 1 }
  let r := notifyAll now s' s'.clients
  (s', Eff.rpc "getblocktemplate" :: r.1, if r.2 then some template else none)

/-- `handle_subscribe(client, msg_id)`: lazily generates the single global
`extranonce1` (the random 8-hex-char string is the `gen` parameter) and
replies with `[["mining.notify", "proxy_<e1>"], e1, extranonce2_size]`. -/
def handle_subscribe (gen : String) (s : ProxyState) (c : Client) (msg_id : Nat) :
    ProxyState × List Eff :=
  let e1 := match s.extranonce1 with
    | none => gen
    | some e => if e = "" then gen else e
  ({ s with extranonce1 := some e1 },
   [Eff.send c.address (Msg.response msg_id
      (RVal.subscribe (String.append "proxy_" e1) e1 s.extranonce2_size) none)])

/-- `clients` after `client['username'] = username` (the Python code mutates
the dict object held in the global list; clients are keyed by address here). -/
def setUsername (cs : List Client) (addr : Nat) (u : JVal) : List Client :=
  cs.map fun c => if c.address = addr then { c with username := some u } else c

/-- `handle_authorize(client, msg_id, username, password)`: replies `true`
unconditionally (any credentials), stores the username, pushes
`mining.set_difficulty`, fetches a template if none is cached (which itself
notifies all authorized clients), then sends the current job to this client. -/
def handle_authorize (rpc : Option Template) (now : Nat) (s : ProxyState)
    (c : Client) (msg_id : Nat) (username pw : JVal) :
    ProxyState × List Eff × Bool :=
  let resp := Eff.send c.address (Msg.response msg_id (RVal.b true) none)
  let s1 : ProxyState := { s with clients := setUsername s.clients c.address username }
  let diffMsg := Eff.send c.address (Msg.setDifficulty s1.difficulty)
  match s1.current_block with
  | none =>
    let r := get_block_template rpc now s1
    match r.2.2 with
    | none => (r.1, resp :: diffMsg :: r.2.1, false)
    | some _ =>
      match send_job now r.1 c with
      | some je => (r.1, resp :: diffMsg :: (r.2.1 ++ je), true)
      | none => (r.1, resp :: diffMsg :: r.2.1, false)
  | some _ =>
    match send_job now s1 c with
    | some je => (s1, resp :: diffMsg :: je, true)
    | none => (s1, [resp, diffMsg], false)

/-- `handle_submit(client, msg_id, worker_name, job_id, extranonce2, ntime,
nonce)`: logs, then replies `{'result': True, 'error': None}` for every
submission — no header is reconstructed, nothing is hashed or compared to any
target, and no `submitblock` RPC is ever issued.  With 10% probability
(`refresh`) it then refreshes the template. -/
def handle_submit (refresh : Bool) (rpc : Option Template) (now : Nat)
    (s : ProxyState) (c : Client) (msg_id : Nat)
    (worker jid exn2 ntm non : JVal) : ProxyState × List Eff × Bool :=
  let resp := Eff.send c.address (Msg.response msg_id (RVal.b true) none)
  if refresh then
    let r := get_block_template rpc now s
    (r.1, resp :: r.2.1, (r.2.2).isSome)
  else (s, [resp], true)

/-- `handle_configure(client, msg_id, params)`: accepts anything, declaring
`{'version-rolling': False, 'subscriptions': []}`. -/
def handle_configure (s : ProxyState) (c : Client) (msg_id : Nat)
    (params : List JVal) : ProxyState × List Eff × Bool :=
  (s, [Eff.send c.address (Msg.response msg_id RVal.configure none)], true)

/-- `float(params[0])` in `handle_suggest_difficulty`, modelled for the
numeric values every claim is about: a JSON number converts to itself; a
non-numeric value is modelled as raising `ValueError` (`none`).  (Python's
`float` would additionally parse a numeric *string*; no claim involves a
string-typed difficulty suggestion.) -/
def jfloat? : JVal → Option Rat
  | JVal.num q => some q
  | JVal.str _ => none

/-- `handle_suggest_difficulty(client, msg_id, params)`: if a parameter is
present, overwrites the *global* `difficulty` with `float(params[0])` — no
clamping of any kind — then replies `true`. -/
def handle_suggest_difficulty (s : ProxyState) (c : Client) (msg_id : Nat)
    (params : List JVal) : ProxyState × List Eff × Bool :=
  match params with
  | [] => (s, [Eff.send c.address (Msg.response msg_id (RVal.b true) none)], true)
  | p :: _ =>
    match jfloat? p with
    | some q =>
      ({ s with difficulty := q },
       [Eff.send c.address (Msg.response msg_id (RVal.b true) none)], true)
    | none => (s, [], false)

/-- The nondeterministic inputs of one dispatch step: the random extranonce1
candidate, the upstream RPC reply, `int(time.time())`, and the
`random.random() < 0.1` draw in `handle_submit`. -/
structure Env where
  gen : String
  rpc : Option Template
  now : Nat
  refresh : Bool

/-- The method dispatch of `handle_client` (lines 351-371): one parsed
message, routed to its handler.  `mining.authorize` with fewer than 2 params
and `mining.submit` with fewer than 5 params fall through silently (no
handler, no reply); an unrecognized method is answered with
`{'result': True, 'error': None}` — success, to avoid disconnection. -/
def dispatch (env : Env) (s : ProxyState) (c : Client) (method : String)
    (msg_id : Nat) (params : List JVal) : ProxyState × List Eff × Bool :=
  if method = "mining.subscribe" then
    let r := handle_subscribe env.gen s c msg_id
    (r.1, r.2, true)
  else if method = "mining.authorize" then
    if 2 ≤ params.length then
      handle_authorize env.rpc env.now s c msg_id
        (params.getD 0 (JVal.str "")) (params.getD 1 (JVal.str ""))
    else (s, [], true)
  else if method = "mining.submit" then
    if 5 ≤ params.length then
      handle_submit env.refresh env.rpc env.now s c msg_id
        (params.getD 0 (JVal.str "")) (params.getD 1 (JVal.str ""))
        (params.getD 2 (JVal.str "")) (params.getD 3 (JVal.str ""))
        (params.getD 4 (JVal.str ""))
    else (s, [], true)
  else if method = "mining.configure" then
    handle_configure s c msg_id params
  else if method = "mining.suggest_difficulty" then
    handle_suggest_difficulty s c msg_id params
  else
    (s, [Eff.send c.address (Msg.response msg_id (RVal.b true) none)], true)

/-! ### Concrete fixtures used by the claim-level theorems -/

/-- An authorized client (username set by a successful `mining.authorize`). -/
def cAuth : Client := { address := 0, username := some (JVal.str "w") }

/-- A client that has not authorized (fresh `handle_client` record). -/
def cUn : Client := { address := 0, username := none }

/-- A second, distinct unauthorized client. -/
def cB : Client := { address := 1, username := none }

/-- A well-formed cached block template (all hex fields valid, `curtime` an
int, as in a real `getblocktemplate` reply). -/
def TX : Template :=
  { previousblockhash := some "000000000000000000096b9ba75c557a8b5ad267b11ddddd97f2c62a1b2a8f4c"
    bits := some "1d00ffff"
    curtime := some (CurTime.int 1700000000)
    height := some 100
    version := some 1
    transactions := some [] }

/-- A running state: one authorized client, a cached template, `job_id = 5`. -/
def sX : ProxyState :=
  { clients := [cAuth]
    difficulty := 1
    job_id := 5
    current_block := some TX
    current_transactions := some []
    extranonce1 := some "abcd1234"
    extranonce2_size := 4 }

/-- A fresh state with one connected, unauthorized client. -/
def s0 : ProxyState := { initialState with clients := [cUn] }

/-- A fixed environment: no refresh draw, RPC failing, time 0. -/
def env0 : Env := { gen := "abcd1234", rpc := none, now := 0, refresh := false }

/-- Five well-formed `mining.submit` params
`[worker, job_id, extranonce2, ntime, nonce]`. -/
def fiveParams : List JVal :=
  [JVal.str "w", JVal.str "5", JVal.str "00000000", JVal.str "65000000",
   JVal.str "00000000"]

/-- The result payload of the single response in a `handle_subscribe` effect
list (used to compare two subscribe replies). -/
def subResult : List Eff → Option RVal
  | [Eff.send _ (Msg.response _ r _)] => some r
  | _ => none

/-- The extranonce1 carried in a `handle_subscribe` reply. -/
def subE1 : List Eff → Option String
  | [Eff.send _ (Msg.response _ (RVal.subscribe _ e _) _)] => some e
  | _ => none

/-- The `(result, error)` pair of a lone response effect. -/
def respParts : List Eff → Option (RVal × Option String)
  | [Eff.send _ (Msg.response _ r e)] => some (r, e)
  | _ => none

/-! ### Helper lemmas -/

theorem send_job_sends (now : Nat) (s : ProxyState) (c : Client) (effs : List Eff)
    (h : send_job now s c = some effs) : ∀ e ∈ effs, ∃ a m, e = Eff.send a m := by
  unfold send_job at h
  split at h
  · injection h with h; subst h; simp
  · dsimp only at h
    split at h
    · injection h with h; subst h; simp
    · split at h
      · injection h with h; subst h
        intro e he
        simp at he
        subst he
        exact ⟨_, _, rfl⟩
      · exact absurd h (by simp)

theorem notifyAll_sends (now : Nat) (s : ProxyState) :
    ∀ (cs : List Client), ∀ e ∈ (notifyAll now s cs).1, ∃ a m, e = Eff.send a m := by
  intro cs
  induction cs with
  | nil => intro e he; simp [notifyAll] at he
  | cons c rest ih =>
    intro e he
    unfold notifyAll at he
    by_cases hu : usernameTruthy c
    · rw [if_pos hu] at he
      rcases hs : send_job now s c with _ | effs
      · rw [hs] at he; simp at he
      · rw [hs] at he
        simp at he
        rcases he with hmem | hmem
        · exact send_job_sends now s c effs hs e hmem
        · exact ih e hmem
    · rw [if_neg hu] at he
      exact ih e he

theorem gbt_no_submitblock (rpc : Option Template) (now : Nat) (s : ProxyState) :
    ∀ e ∈ (get_block_template rpc now s).2.1, ¬ e = Eff.rpc "submitblock" := by
  intro e he
  simp only [get_block_template] at he
  rcases List.mem_cons.mp he with rfl | hmem
  · simp
  · obtain ⟨a, m, rfl⟩ := notifyAll_sends now _ _ e hmem
    simp

/-! ### Claim-level theorems -/

/-- C1: contrary to the claim, `handle_submit` never reconstructs or hashes a
header and never compares anything against a target: with a current job cached
it answers every submission — here one whose header hash would exceed any
realistic target — with `{'result': True, 'error': None}` (Accepted), and no
`submitblock` upstream call is ever issued by any submission. -/
theorem submit_always_accepts :
    handle_submit false none 0 sX cAuth 4 (JVal.str "w") (JVal.str "5")
        (JVal.str "00000000") (JVal.str "65000000") (JVal.str "00000000") =
      (sX, [Eff.send 0 (Msg.response 4 (RVal.b true) none)], true) ∧
    ∀ (refresh : Bool) (rpc : Option Template) (now : Nat) (s : ProxyState)
      (c : Client) (i : Nat) (w j e2 nt nn : JVal),
      ∀ eff ∈ (handle_submit refresh rpc now s c i w j e2 nt nn).2.1,
        ¬ eff = Eff.rpc "submitblock" := by
  refine ⟨by decide, ?_⟩
  intro refresh rpc now s c i w j e2 nt nn eff heff
  unfold handle_submit at heff
  by_cases hr : refresh
  · rw [if_pos hr] at heff
    simp at heff
    rcases heff with rfl | hmem
    · simp
    · exact gbt_no_submitblock rpc now s eff hmem
  · rw [if_neg hr] at heff
    simp at heff
    subst heff
    simp

/-- C1 witness: the universally quantified part of `submit_always_accepts`
applied at the concrete accepted-response effect of the concrete submission. -/
theorem submit_always_accepts_w :
    ¬ Eff.send 0 (Msg.response 4 (RVal.b true) none) = Eff.rpc "submitblock" :=
  submit_always_accepts.2 false none 0 sX cAuth 4 (JVal.str "w") (JVal.str "5")
    (JVal.str "00000000") (JVal.str "65000000") (JVal.str "00000000")
    (Eff.send 0 (Msg.response 4 (RVal.b true) none)) (by decide)

/-- C2 counterexample: a session that has never authorized
(`username = None`) sends `mining.submit` with 5 params; the dispatcher routes
it straight to `handle_submit`, which answers `{'result': True,
'error': None}` — an accepted success, not an `Unauthorized` error. -/
theorem submit_unauthorized_accepted_cex :
    cUn.username = none ∧
    dispatch env0 s0 cUn "mining.submit" 4 fiveParams =
      (s0, [Eff.send 0 (Msg.response 4 (RVal.b true) none)], true) := by decide

/-- C2 amended: a `mining.submit` with at least 5 params is handed to
`handle_submit` regardless of the session's authorization state, and the
first message sent is always the accepting success response (the dispatcher
performs no authorization check and no `Unauthorized` error exists). -/
theorem submit_no_auth_check (env : Env) (s : ProxyState) (c : Client) (i : Nat)
    (ps : List JVal) (hlen : 5 ≤ ps.length) :
    (dispatch env s c "mining.submit" i ps).2.1.head? =
      some (Eff.send c.address (Msg.response i (RVal.b true) none)) := by
  unfold dispatch
  rw [if_neg (by decide : ¬ ("mining.submit" : String) = "mining.subscribe"),
    if_neg (by decide : ¬ ("mining.submit" : String) = "mining.authorize"),
    if_pos (rfl : ("mining.submit" : String) = "mining.submit"), if_pos hlen]
  unfold handle_submit
  by_cases hr : env.refresh
  · rw [if_pos hr]; rfl
  · rw [if_neg hr]; rfl

/-- C2 witness: `submit_no_auth_check` at a concrete unauthorized session. -/
theorem submit_no_auth_check_w :
    (dispatch env0 s0 cUn "mining.submit" 4 fiveParams).2.1.head? =
      some (Eff.send cUn.address (Msg.response 4 (RVal.b true) none)) :=
  submit_no_auth_check env0 s0 cUn 4 fiveParams (by decide)

/-- C3 counterexample: with template `TX` cached, a failing
`getblocktemplate` RPC (`none`) makes `get_block_template` replace the cached
template with the fabricated dummy — the previously cached job is NOT left
unchanged. -/
theorem rpc_failure_cex :
    sX.current_block = some TX ∧
    (get_block_template none 0 sX).1.current_block = some (dummyTemplate 0) ∧
    ¬ (get_block_template none 0 sX).1.current_block = some TX := by decide

/-- C3 amended: on RPC failure the refresh logs an error but then substitutes
the fixed fabricated placeholder template (`dummyTemplate`), replaces the
cached current template with it and assigns a fresh `job_id`; the previously
cached job is overwritten rather than preserved. -/
theorem rpc_failure_fabricates (now : Nat) (s : ProxyState) :
    (get_block_template none now s).1.current_block = some (dummyTemplate now) ∧
    (get_block_template none now s).1.job_id = s.job_id + 1 := by
  constructor <;> rfl

/-- C4 counterexample: a successful fetch returning a template identical to
the cached one (`TX = sX.current_block`) still increments `job_id` (5 → 6)
and still broadcasts (the effect list has the RPC call plus a `mining.notify`
to the authorized client) — no previousBlockHash/height/transaction
comparison is performed. -/
theorem fetch_same_template_cex :
    sX.current_block = some TX ∧
    (get_block_template (some TX) 0 sX).1.job_id = 6 ∧
    (get_block_template (some TX) 0 sX).2.1.length = 2 ∧
    (get_block_template (some TX) 0 sX).2.2 = some TX := by decide

/-- C4 amended: every call of `get_block_template` — whatever the fetched
template, even one equal to the cached template, and even on RPC failure —
unconditionally assigns the next `job_id` and replaces the cached current
template with the fetched (or dummy) one; no change comparison exists and
job notifications are attempted on every call. -/
theorem fetch_unconditional (rpc : Option Template) (now : Nat) (s : ProxyState) :
    (get_block_template rpc now s).1.job_id = s.job_id + 1 ∧
    (get_block_template rpc now s).1.current_block =
      some (rpc.getD (dummyTemplate now)) := by
  constructor <;> rfl

/-- C5 counterexample: two distinct sessions subscribe on a fresh proxy; the
second receives exactly the same `extranonce1` (`"abcd1234"`) as the first —
the value is a single process-wide global, not per-session. -/
theorem extranonce1_collision_cex :
    ¬ cUn = cB ∧
    subE1 (handle_subscribe "abcd1234" initialState cUn 1).2 = some "abcd1234" ∧
    subE1 (handle_subscribe "ffff0000"
        (handle_subscribe "abcd1234" initialState cUn 1).1 cB 1).2 =
      some "abcd1234" := by decide

/-- C5 amended: `extranonce1` is one global value generated at the first
subscribe; every later subscriber receives that same value, so any two
subscribed sessions share (rather than differ in) their `extranonce1`. -/
theorem extranonce1_shared (g1 g2 : String) (s : ProxyState) (c c' : Client)
    (i1 i2 : Nat) (h0 : s.extranonce1 = none) (hg : ¬ g1 = "") :
    subE1 (handle_subscribe g1 s c i1).2 = some g1 ∧
    subE1 (handle_subscribe g2 (handle_subscribe g1 s c i1).1 c' i2).2 =
      some g1 := by
  simp [handle_subscribe, h0, hg, subE1]

/-- C5 witness: `extranonce1_shared` at two concrete sessions. -/
theorem extranonce1_shared_w :
    subE1 (handle_subscribe "ab" initialState cUn 1).2 = some "ab" ∧
    subE1 (handle_subscribe "cd"
        (handle_subscribe "ab" initialState cUn 1).1 cB 2).2 = some "ab" :=
  extranonce1_shared "ab" "cd" initialState cUn cB 1 2 rfl (by decide)

/-- C6 counterexample: an unrecognized method (`mining.foo`) keeps the session
open but is answered with `{'result': True, 'error': None}` — a success
result with a null error, not a "method not recognized" error result. -/
theorem unknown_method_success_cex :
    dispatch env0 s0 cUn "mining.foo" 3 [] =
      (s0, [Eff.send 0 (Msg.response 3 (RVal.b true) none)], true) ∧
    respParts (dispatch env0 s0 cUn "mining.foo" 3 []).2.1 =
      some (RVal.b true, none) := by decide

/-- C6 amended: for every message whose method is none of the five recognized
mining methods, the dispatcher keeps the session open and untouched and
replies with a fabricated success result (`result: true`, `error: null`)
rather than an error. -/
theorem unknown_method_keeps_session (env : Env) (s : ProxyState) (c : Client)
    (m : String) (i : Nat) (ps : List JVal)
    (h1 : ¬ m = "mining.subscribe") (h2 : ¬ m = "mining.authorize")
    (h3 : ¬ m = "mining.submit") (h4 : ¬ m = "mining.configure")
    (h5 : ¬ m = "mining.suggest_difficulty") :
    dispatch env s c m i ps =
      (s, [Eff.send c.address (Msg.response i (RVal.b true) none)], true) := by
  unfold dispatch
  rw [if_neg h1, if_neg h2, if_neg h3, if_neg h4, if_neg h5]

/-- C6 witness: `unknown_method_keeps_session` at a concrete unknown method. -/
theorem unknown_method_keeps_session_w :
    dispatch env0 s0 cUn "mining.ping" 3 [] =
      (s0, [Eff.send cUn.address (Msg.response 3 (RVal.b true) none)], true) :=
  unknown_method_keeps_session env0 s0 cUn "mining.ping" 3 []
    (by decide) (by decide) (by decide) (by decide) (by decide)

/-- C7 counterexample: `mining.suggest_difficulty` with requested value `-1`
stores `-1` — a negative difficulty — and it lands in the process-wide global
`difficulty` field, not in any per-session slot: no clamping exists. -/
theorem suggest_difficulty_negative_cex :
    (dispatch env0 s0 cUn "mining.suggest_difficulty" 5
        [JVal.num (-1)]).1.difficulty = -1 ∧
    ((-1 : Rat) < 0) := by decide

/-- C7 amended: `mining.suggest_difficulty` with a numeric requested value
overwrites the single process-wide `difficulty` global (shared by all
sessions) with exactly the requested value — no minimum/maximum clamp, so
zero and negative values are stored as-is — and replies `true`. -/
theorem suggest_difficulty_global_unclamped (env : Env) (s : ProxyState)
    (c : Client) (i : Nat) (q : Rat) :
    dispatch env s c "mining.suggest_difficulty" i [JVal.num q] =
      ({ s with difficulty := q },
       [Eff.send c.address (Msg.response i (RVal.b true) none)], true) := by
  unfold dispatch
  rw [if_neg (by decide : ¬ ("mining.suggest_difficulty" : String) = "mining.subscribe"),
    if_neg (by decide : ¬ ("mining.suggest_difficulty" : String) = "mining.authorize"),
    if_neg (by decide : ¬ ("mining.suggest_difficulty" : String) = "mining.submit"),
    if_neg (by decide : ¬ ("mining.suggest_difficulty" : String) = "mining.configure"),
    if_pos (rfl : ("mining.suggest_difficulty" : String) = "mining.suggest_difficulty")]
  rfl

/-- C8: re-sending `mining.subscribe` on an already-subscribed session leaves
the whole proxy state (in particular the global `extranonce1`) unchanged,
replies with the same subscription payload, and never touches the stored
worker names (the first subscribe already leaves `clients` untouched). -/
theorem subscribe_idempotent (g1 g2 : String) (s : ProxyState) (c : Client)
    (i1 i2 : Nat) (hg : ¬ g1 = "") :
    (handle_subscribe g2 (handle_subscribe g1 s c i1).1 c i2).1 =
      (handle_subscribe g1 s c i1).1 ∧
    subResult (handle_subscribe g2 (handle_subscribe g1 s c i1).1 c i2).2 =
      subResult (handle_subscribe g1 s c i1).2 ∧
    (handle_subscribe g1 s c i1).1.clients = s.clients := by
  rcases hcb : s.extranonce1 with _ | e0
  · simp [handle_subscribe, hcb, hg, subResult]
  · by_cases h0 : e0 = ""
    · simp [handle_subscribe, hcb, h0, hg, subResult]
    · simp [handle_subscribe, hcb, h0, subResult]

/-- C8 witness: `subscribe_idempotent` at a concrete session. -/
theorem subscribe_idempotent_w :
    (handle_subscribe "cd" (handle_subscribe "ab" initialState cUn 1).1 cUn 2).1 =
      (handle_subscribe "ab" initialState cUn 1).1 ∧
    subResult (handle_subscribe "cd"
        (handle_subscribe "ab" initialState cUn 1).1 cUn 2).2 =
      subResult (handle_subscribe "ab" initialState cUn 1).2 ∧
    (handle_subscribe "ab" initialState cUn 1).1.clients = initialState.clients :=
  subscribe_idempotent "ab" "cd" initialState cUn 1 2 (by decide)

/-- C9 counterexample: the transform is not an involution on every 4-byte hex
string: on the upper-case input `"DEADBEEF"` applying it twice returns the
lower-case `"deadbeef"`, not the original string. -/
theorem le_transform_case_cex :
    (leTransform? "DEADBEEF").bind leTransform? = some "deadbeef" ∧
    ¬ (leTransform? "DEADBEEF").bind leTransform? = some "DEADBEEF" := by decide

/-- C9 amended: for every 4-byte hex string written in lower-case hex digits
(the form the proxy itself produces), applying the little-endian transform
twice returns the original string; upper-case inputs come back lower-cased
(same value, different string). -/
theorem le_transform_involution (s : String) (hlen : s.data.length = 8)
    (hlc : ∀ c ∈ s.data, c ∈ lowerHexDigits) :
    (leTransform? s).bind leTransform? = some s := by
  obtain ⟨l⟩ := s
  have hl8 : l.length = 8 := hlen
  have hlc' : ∀ c ∈ l, c ∈ lowerHexDigits := hlc
  obtain ⟨bs, hdec, hlt, henc⟩ := hexDecode_lower l hlc' (by omega)
  have h2 : hexDecode? (hexEncode bs.reverse) = some bs.reverse :=
    hexDecode_hexEncode _ (fun b hb => hlt b (List.mem_reverse.mp hb))
  have h1 : leTransform? (String.mk l) = some (String.mk (hexEncode bs.reverse)) := by
    simp [leTransform?, hdec]
  have h3 : leTransform? (String.mk (hexEncode bs.reverse)) =
      some (String.mk (hexEncode bs.reverse.reverse)) := by
    simp [leTransform?, h2]
  rw [h1]
  simp only [Option.some_bind]
  rw [h3, List.reverse_reverse, henc]

/-- C9 witness: `le_transform_involution` at a concrete lower-case input. -/
theorem le_transform_involution_w :
    (leTransform? "deadbeef").bind leTransform? = some "deadbeef" :=
  le_transform_involution "deadbeef" (by decide) (by decide)

/-- C10: a `mining.authorize` with fewer than 2 params and a `mining.submit`
with fewer than 5 params fall through the dispatcher silently: no handler
runs, no message is sent, the state is unchanged and no exception is raised
(the connection stays open). -/
theorem short_params_dropped (env : Env) (s : ProxyState) (c : Client) (i : Nat)
    (ps : List JVal) :
    (ps.length < 2 → dispatch env s c "mining.authorize" i ps = (s, [], true)) ∧
    (ps.length < 5 → dispatch env s c "mining.submit" i ps = (s, [], true)) := by
  constructor
  · intro h
    unfold dispatch
    rw [if_neg (by decide : ¬ ("mining.authorize" : String) = "mining.subscribe"),
      if_pos (rfl : ("mining.authorize" : String) = "mining.authorize"),
      if_neg (by omega : ¬ 2 ≤ ps.length)]
  · intro h
    unfold dispatch
    rw [if_neg (by decide : ¬ ("mining.submit" : String) = "mining.subscribe"),
      if_neg (by decide : ¬ ("mining.submit" : String) = "mining.authorize"),
      if_pos (rfl : ("mining.submit" : String) = "mining.submit"),
      if_neg (by omega : ¬ 5 ≤ ps.length)]

/-- C10 witness: `short_params_dropped` at one-element param lists. -/
theorem short_params_dropped_w :
    dispatch env0 s0 cUn "mining.authorize" 7 [JVal.str "x"] = (s0, [], true) ∧
    dispatch env0 s0 cUn "mining.submit" 8 [JVal.str "x"] = (s0, [], true) :=
  ⟨(short_params_dropped env0 s0 cUn 7 [JVal.str "x"]).1 (by decide),
   (short_params_dropped env0 s0 cUn 8 [JVal.str "x"]).2 (by decide)⟩
